import Mathlib

/-!
Verification of the `config-ninja` synchronization engine against its design
specification.  The Python modules `backend.py`, `controller.py`, `hooks.py`,
`settings/__init__.py`, `contrib/appconfig.py`, `contrib/secretsmanager.py`
and `contrib/local.py` are shallowly embedded below: pure functions become
Lean functions, stateful loops become explicit state passing over finite
traces of provider responses, and Python exceptions become `Except` values.
External libraries (the `json`/`yaml`/`tomlkit` serializers, `jinja2`,
`poethepoet`'s task objects and `boto3` clients) are opaque parameters of the
embedding: the theorems quantify over every implementation of them.
-/

namespace ConfigNinja

/-- A Python exception relevant to the embedded code: `KeyError(key)` or
`ValueError(message)`. -/
inductive PyError where
  | keyError (key : String)
  | valueError (message : String)
deriving DecidableEq, Repr

deriving instance DecidableEq for Except

/-- A Python `dict[str, str]`, embedded as an association list.  Lookup of a
key returns the value of its first occurrence. -/
def StrDict : Type := List (String × String)

instance : DecidableEq StrDict := by
  unfold StrDict
  infer_instance

/-- Dictionary lookup (`m[k]` style): `some v` when the key is present, `none` otherwise. -/
def dictGet : StrDict → String → Option String
  | [], _ => none
  | (k, v) :: rest, key => if k = key then some v else dictGet rest key

/-- Python dictionary equality (`m1 == m2`): the two dictionaries associate
the same value (or absence) to every key. -/
def dictEquiv (m1 m2 : StrDict) : Prop :=
  ∀ k : String, dictGet m1 k = dictGet m2 k

/-! ## `config_ninja/backend.py`: the codec registry -/

/-- Python `load_raw(raw)`: treat the string as raw text, wrapping it under the
synthetic `content` key (`backend.py` line 26). -/
def load_raw (raw : String) : StrDict := [("content", raw)]

/-- Python `dump_raw(data)`: get the `content` key from the given dict
(`backend.py` line 31); a missing key is a `KeyError`, as in Python's
`data['content']`. -/
def dump_raw (data : StrDict) : Except PyError String :=
  match dictGet data "content" with
  | some v => Except.ok v
  | none => Except.error (PyError.keyError "content")

/-- The serializers that `backend.py` imports from external libraries
(`json.loads`/`json.dumps`, `yaml.safe_load`/`yaml.dump`,
`tomlkit.loads`/`tomlkit.dumps`).  They are opaque to this repository; the
theorems below quantify over every implementation. -/
structure ExternalCodecs where
  jsonLoads : String → Except PyError StrDict
  jsonDumps : StrDict → Except PyError String
  yamlSafeLoad : String → Except PyError StrDict
  yamlDump : StrDict → Except PyError String
  tomlLoads : String → Except PyError StrDict
  tomlDumps : StrDict → Except PyError String

/-- The `LOADERS` registry (`backend.py` line 36): format identifier →
decode function. -/
def LOADERS (ext : ExternalCodecs) : List (String × (String → Except PyError StrDict)) :=
  [ ("json", ext.jsonLoads),
    ("raw", fun s => Except.ok (load_raw s)),
    ("toml", ext.tomlLoads),
    ("yaml", ext.yamlSafeLoad),
    ("yml", ext.yamlSafeLoad) ]

/-- The `DUMPERS` registry (`backend.py` line 44): format identifier →
encode function. -/
def DUMPERS (ext : ExternalCodecs) : List (String × (StrDict → Except PyError String)) :=
  [ ("json", ext.jsonDumps),
    ("raw", dump_raw),
    ("toml", ext.tomlDumps),
    ("yaml", ext.yamlDump),
    ("yml", ext.yamlDump) ]

/-- Registry lookup, as Python's `DUMPERS[fmt]` / `LOADERS[fmt]`. -/
def registryGet {α : Type} : List (String × α) → String → Option α
  | [], _ => none
  | (k, v) :: rest, key => if k = key then some v else registryGet rest key

/-- Python `dumps(fmt, data)` (`backend.py` line 53): look the format up in
`DUMPERS`; a missing entry raises `ValueError("unsupported format: '<fmt>'")`
before any encoder runs; otherwise the encoder is applied. -/
def dumps (ext : ExternalCodecs) (fmt : String) (data : StrDict) : Except PyError String :=
  match registryGet (DUMPERS ext) fmt with
  | none => Except.error (PyError.valueError ("unsupported format: \x27" ++ fmt ++ "\x27"))
  | some dump => dump data

/-- Python `loads(fmt, raw)` (`backend.py` line 63): look the format up in
`LOADERS`; a missing entry raises `ValueError("unsupported format: '<fmt>'")`
before any decoder runs; otherwise the decoder is applied. -/
def loads (ext : ExternalCodecs) (fmt : String) (raw : String) : Except PyError StrDict :=
  match registryGet (LOADERS ext) fmt with
  | none => Except.error (PyError.valueError ("unsupported format: \x27" ++ fmt ++ "\x27"))
  | some load => load raw

/-- The five supported format identifiers, i.e. the keys of the two
registries (`FormatT` in `backend.py` line 18). -/
def supportedFormats : List String := ["json", "raw", "toml", "yaml", "yml"]

/-! ## `DestSpec` (`controller.py` lines 43-90 / `settings/__init__.py` lines 145-186) -/

/-- The `format` field of a `DestSpec`: either a supported format identifier
(a `FormatT`), or a `jinja2.Template` loaded from a filesystem path.  The
`template` constructor records the path the template was loaded from
(`jinja2.FileSystemLoader(template_path.parent)` +
`env.get_template(template_path.name)`); the jinja2 machinery itself is
external to the repository. -/
inductive DestFormat where
  | codec (fmt : String)
  | template (path : String)
deriving DecidableEq, Repr

/-- The `DestSpec` dataclass: a destination path plus a `DestFormat`. -/
structure DestSpec where
  path : String
  format : DestFormat
deriving DecidableEq, Repr

/-- Python `DestSpec.is_template` (`controller.py` line 87): whether the
destination uses a jinja2 template (i.e. `format` is not a codec id). -/
def DestSpec.is_template (spec : DestSpec) : Bool :=
  match spec.format with
  | DestFormat.codec _ => false
  | DestFormat.template _ => true

/-- Python `DestSpec.from_primitives(data)` (`controller.py` line 72): if
`data['format']` is a key of `DUMPERS`, the destination uses that codec;
otherwise `data['format']` is treated as the filesystem path of a jinja2
template, which is loaded. -/
def DestSpec.from_primitives (ext : ExternalCodecs) (path fmt : String) : DestSpec :=
  if (registryGet (DUMPERS ext) fmt).isSome then
    { path := path, format := DestFormat.codec fmt }
  else
    { path := path, format := DestFormat.template fmt }

/-! ## `config_ninja/hooks.py`: the hook graph executor

`poethepoet`'s task objects are embedded as plain records: a task has a name
and a `has_deps()` flag.  Running a task (`PoeTask.run(context=ctx)`) is an
opaque external call; it is embedded as a function from the task to
`Except String Nat`: `Except.error` is a raised `ExecutionError`, and
`Except.ok code` is the task's integer result (`0` = success, non-zero =
failure).  `TaskExecutionGraph.get_execution_plan()` is likewise external;
its result (ordered batches of tasks, sink last) is an input of the
embedding. -/

/-- A `poethepoet.task.base.PoeTask`, reduced to the data `hooks.py`
inspects: its name and whether it has dependencies. -/
structure PoeTask where
  name : String
  hasDeps : Bool
deriving DecidableEq, Repr

/-- The result of `PoeTask.run(context=...)`: a raised `ExecutionError`
(`Except.error`) or an integer result code (`Except.ok`). -/
abbrev TaskRunner := PoeTask → Except String Nat

/-- One recorded task invocation: `direct` is the
`HooksEngine.run_task` path (used for dependency-free tasks and for the
final sink task of a graph), `staged` is the `stage_task.run(context=ctx)`
call made for intermediate graph tasks. -/
inductive TaskInvocation where
  | direct (name : String)
  | staged (name : String)
deriving DecidableEq, Repr

/-- The outcome of a hook execution: the ordered list of task invocations
performed, and—when a `poethepoet.exceptions.ExecutionError` was raised—its
message. -/
inductive GraphOutcome where
  | ok (invocations : List TaskInvocation)
  | executionError (message : String) (invocations : List TaskInvocation)
deriving DecidableEq, Repr

/-- Prepend earlier invocations to an outcome's invocation list. -/
def GraphOutcome.prependInvs (invs : List TaskInvocation) : GraphOutcome → GraphOutcome
  | GraphOutcome.ok later => GraphOutcome.ok (invs ++ later)
  | GraphOutcome.executionError msg later => GraphOutcome.executionError msg (invs ++ later)

/-- Python `HooksEngine.run_task(task)` (`hooks.py` line 169): run the task through
the direct path; an `ExecutionError` raised by `task.run` is logged and
re-raised, and the integer result is discarded. -/
def run_task (runner : TaskRunner) (task : PoeTask) : GraphOutcome :=
  match runner task with
  | Except.error msg => GraphOutcome.executionError msg [TaskInvocation.direct task.name]
  | Except.ok _ => GraphOutcome.ok [TaskInvocation.direct task.name]

/-- The abort message raised when an intermediate graph task fails
(`hooks.py` line 198): `Task graph aborted after failed task '<name>'`
(the `{stage_task.name!r}` repr quoting, for names without quote
characters). -/
def abortMessage (name : String) : String :=
  "Task graph aborted after failed task \x27" ++ name ++ "\x27"

/-- The effect of the inner `for stage_task in stage` loop of
`HooksEngine.run_task_graph` on one stage: either the loop finished the
stage and control continues with the next stage (`next`, carrying the
invocations made), or the whole graph execution finished (`finished`) —
because the sink task was reached and run through the direct path
(whereupon the function returns), because an intermediate task returned a
non-zero result (whereupon an `ExecutionError` naming it is raised), or
because `stage_task.run` itself raised. -/
inductive StageStep where
  | next (invocations : List TaskInvocation)
  | finished (outcome : GraphOutcome)
deriving DecidableEq, Repr

/-- The inner loop of `HooksEngine.run_task_graph` (`hooks.py` lines
189-200) over the tasks of one stage. -/
def runStageTasks (runner : TaskRunner) (sink : PoeTask) : List PoeTask → StageStep
  | [] => StageStep.next []
  | t :: rest =>
    if t = sink then
      StageStep.finished (run_task runner t)
    else
      match runner t with
      | Except.error msg =>
        StageStep.finished (GraphOutcome.executionError msg [TaskInvocation.staged t.name])
      | Except.ok code =>
        if code ≠ 0 then
          StageStep.finished
            (GraphOutcome.executionError (abortMessage t.name) [TaskInvocation.staged t.name])
        else
          match runStageTasks runner sink rest with
          | StageStep.next invs => StageStep.next (TaskInvocation.staged t.name :: invs)
          | StageStep.finished out =>
            StageStep.finished (out.prependInvs [TaskInvocation.staged t.name])

/-- The outer `for stage in plan` loop of `HooksEngine.run_task_graph`
(`hooks.py` lines 189-200): run the stages of the execution plan in order;
an empty plan falls through the loop and returns successfully with no
invocations. -/
def run_task_graph (runner : TaskRunner) (sink : PoeTask) : List (List PoeTask) → GraphOutcome
  | [] => GraphOutcome.ok []
  | stage :: rest =>
    match runStageTasks runner sink stage with
    | StageStep.finished out => out
    | StageStep.next invs => (run_task_graph runner sink rest).prependInvs invs

/-- Python `HooksEngine.execute(hook_name)` (`hooks.py` line 131): a task with
dependencies is run through `run_task_graph` on the plan computed by
`TaskExecutionGraph` (an external collaborator, so the plan is an input
here); a task without dependencies is run directly through `run_task`. -/
def HooksEngine.execute (runner : TaskRunner) (task : PoeTask)
    (plan : List (List PoeTask)) : GraphOutcome :=
  if task.hasDeps then run_task_graph runner task plan else run_task runner task

/-! ## `config_ninja/contrib/appconfig.py`: the AWS AppConfig backend

The `boto3` client is an external collaborator; its responses are inputs of
the embedding.  The long-poll loop `AppConfigBackend.poll` is embedded as a
function from a finite trace of provider responses to the list of observable
events (sleeps, yields, and a propagated exception). -/

/-- The outcome that `_get_id_from_name` returns on success: the selected
ID, plus the data of the `RuntimeWarning` recorded when more than one match
was found (total number of matches, the ID that will be used, and the
ignored IDs). -/
structure ResolvedId where
  id : String
  warning : Option (Nat × String × List String)
deriving DecidableEq, Repr

/-- Python `AppConfigBackend._get_id_from_name` (`appconfig.py` lines 110-128),
applied to the list of IDs the provider's paginated search returned, in
provider order: zero matches raises
`ValueError('no "<operation>" results found for Name="<name>"')`; otherwise
the first match is returned, and a `RuntimeWarning` listing the ignored
matches is recorded when there was more than one. -/
def get_id_from_name (name operationName : String) (ids : List String) :
    Except PyError ResolvedId :=
  match ids with
  | [] =>
    Except.error (PyError.valueError
      ("no \"" ++ operationName ++ "\" results found for Name=\"" ++ name ++ "\""))
  | first :: rest =>
    Except.ok
      { id := first,
        warning := if rest.length > 0 then some (ids.length, first, rest) else none }

/-- One response of `client.get_latest_configuration` (or the
`BadRequestException` it raised instead): `badRequest` carries the
exception's error message; `config` carries the payload (empty = no
change), the `NextPollConfigurationToken` and `NextPollIntervalInSeconds`. -/
inductive AppConfigResp where
  | badRequest (message : String)
  | config (content nextToken : String) (nextIntervalSeconds : ℚ)
deriving DecidableEq, Repr

/-- An observable event of `AppConfigBackend.poll`: an `asyncio.sleep`, a
yielded payload, or an exception propagating to the caller. -/
inductive PollEvent where
  | sleep (seconds : ℚ)
  | yielded (content : String)
  | raised (message : String)
deriving DecidableEq, Repr

/-- The `while True` loop of `AppConfigBackend.poll` (`appconfig.py` lines
257-274), run over a finite trace of provider responses, threading the
rotating configuration token.  A `BadRequestException` whose message is
`Request too early` causes a sleep of half the configured interval and a
retry without yielding; any other `BadRequestException` re-raises; a
response with a non-empty payload is yielded; then the loop sleeps for the
provider's suggested `NextPollIntervalInSeconds`. -/
def appConfigPoll (interval : ℚ) (token : String) : List AppConfigResp → List PollEvent
  | [] => []
  | AppConfigResp.badRequest msg :: rest =>
    if msg ≠ "Request too early" then
      [PollEvent.raised msg]
    else
      PollEvent.sleep (interval / 2) :: appConfigPoll interval token rest
  | AppConfigResp.config content nextToken nextIntervalSeconds :: rest =>
    (if content ≠ "" then [PollEvent.yielded content] else [])
      ++ PollEvent.sleep nextIntervalSeconds :: appConfigPoll interval nextToken rest

/-- The connection state of `AppConfigBackend` (`appconfig.py` lines 65-95):
an opaque client handle and the three resolved identifiers. -/
structure AppConfigBackend where
  client : Nat
  application_id : String
  configuration_profile_id : String
  environment_id : String
deriving DecidableEq, Repr

/-- The provider's response to
`start_configuration_session` + `get_latest_configuration` inside
`AppConfigBackend.get` (`appconfig.py` lines 130-141). -/
structure AppConfigGetResp where
  initialToken : String
  content : String
deriving DecidableEq, Repr

/-- Python `AppConfigBackend.get` (`appconfig.py` lines 130-141): open a session,
request the latest configuration and decode it; no attribute of the backend
is assigned (the session token is a local variable), so the state is
returned unchanged. -/
def AppConfigBackend.get (b : AppConfigBackend) (resp : AppConfigGetResp) :
    AppConfigBackend × String :=
  (b, resp.content)

/-! ## `config_ninja/contrib/secretsmanager.py`: the AWS SecretsManager backend -/

/-- One entry of the `Versions` list returned by
`client.list_secret_version_ids`: the optional `VersionId` and the
`VersionStages` labels. -/
structure SecretVersion where
  versionId : Option String
  versionStages : List String
deriving DecidableEq, Repr

/-- Python `SecretsManagerBackend._retrieve_current_version` (`secretsmanager.py`
lines 86-100): scan the provider's version list for the first entry whose
stages contain `AWSCURRENT` and whose `VersionId` is truthy (present and
non-empty); if none is flagged current, raise
`ValueError("No current version found for secret '<label>'")`. -/
def retrieveCurrentVersion (label : String) : List SecretVersion → Except PyError String
  | [] =>
    Except.error (PyError.valueError
      ("No current version found for secret \x27" ++ label ++ "\x27"))
  | v :: rest =>
    match v.versionId with
    | some vid =>
      if "AWSCURRENT" ∈ v.versionStages ∧ vid ≠ "" then Except.ok vid
      else retrieveCurrentVersion label rest
    | none => retrieveCurrentVersion label rest

/-- The connection state of `SecretsManagerBackend` (`secretsmanager.py`
lines 45-57): an opaque client handle, the secret ID, and the last-seen
version marker (`version_id`, initially `None`). -/
structure SecretsManagerBackend where
  client : Nat
  secret_id : String
  version_id : Option String
deriving DecidableEq, Repr

/-- The provider's response to `client.get_secret_value`. -/
structure GetSecretValueResp where
  versionId : Option String
  secretString : String
deriving DecidableEq, Repr

/-- Python `SecretsManagerBackend.get` (`secretsmanager.py` lines 80-84): retrieve
the secret data, recording the response's `VersionId` in the last-seen
version marker. -/
def SecretsManagerBackend.get (b : SecretsManagerBackend) (resp : GetSecretValueResp) :
    SecretsManagerBackend × String :=
  ({ b with version_id := resp.versionId }, resp.secretString)

/-- Python `SecretsManagerBackend.__str__` (`secretsmanager.py` lines 59-65): the
secret ID, annotated with the last-seen version when that marker is truthy
(present and non-empty). -/
def SecretsManagerBackend.str (b : SecretsManagerBackend) : String :=
  match b.version_id with
  | none => b.secret_id
  | some vid =>
    if vid = "" then b.secret_id else b.secret_id ++ " (version: " ++ vid ++ ")"

/-- The provider traffic of one cycle of `SecretsManagerBackend.poll`: the
version list answered by `list_secret_version_ids`, and the
`get_secret_value` response used if the cycle fetches the secret. -/
structure SecretCycle where
  versions : List SecretVersion
  getResp : GetSecretValueResp
deriving DecidableEq, Repr

/-- An observable event of `SecretsManagerBackend.poll`: a logged warning,
a yielded secret value, or an `asyncio.sleep`. -/
inductive SecretPollEvent where
  | warned (message : String)
  | yielded (value : String)
  | sleep (seconds : ℚ)
deriving DecidableEq, Repr

/-- The `while True` loop of `SecretsManagerBackend.poll`
(`secretsmanager.py` lines 102-114), run over a finite trace of per-cycle
provider responses and threading the backend state.  A cycle on which no
version is flagged current logs the `ValueError`'s message as a warning and
neither fails nor yields; a cycle whose current version is truthy and
differs from the last-seen marker yields `self.get()` (which updates the
marker); every cycle ends by sleeping for the interval. -/
def secretsManagerPoll (interval : ℚ) (b : SecretsManagerBackend) :
    List SecretCycle → SecretsManagerBackend × List SecretPollEvent
  | [] => (b, [])
  | c :: rest =>
    match retrieveCurrentVersion b.str c.versions with
    | Except.error e =>
      let msg := match e with
        | PyError.valueError m => m
        | PyError.keyError k => k
      let (b', events) := secretsManagerPoll interval b rest
      (b', SecretPollEvent.warned msg :: SecretPollEvent.sleep interval :: events)
    | Except.ok vid =>
      if vid ≠ "" ∧ some vid ≠ b.version_id then
        let (b1, value) := b.get c.getResp
        let (b', events) := secretsManagerPoll interval b1 rest
        (b', SecretPollEvent.yielded value :: SecretPollEvent.sleep interval :: events)
      else
        let (b', events) := secretsManagerPoll interval b rest
        (b', SecretPollEvent.sleep interval :: events)

/-! ## `config_ninja/contrib/local.py`: the local-file backend -/

/-- The connection state of `LocalBackend` (`local.py` lines 48-62): the
source file path. -/
structure LocalBackend where
  path : String
deriving DecidableEq, Repr

/-- Python `LocalBackend.get` (`local.py` lines 68-71): read the file's contents
(an external filesystem read, passed as input); no attribute is assigned. -/
def LocalBackend.get (b : LocalBackend) (fileContents : String) : LocalBackend × String :=
  (b, fileContents)

/-! ## The one-shot apply operation

The CLI's `apply` command (`cli.py` lines 425-449) drives one controller per
selected object and calls `BackendController.from_settings(...)` followed by
`ctrl.write()`.  The revision of `controller.py` that defines
`from_settings` — the one `cli.py` and the acceptance tests
(`tests/acceptance/test_620.py`) exercise, in which `write()` creates the
destination's parent directories and then runs the object's hooks — is not
part of the source tree here (the bundled `controller.py` is an earlier
revision without `from_settings`).  The write-and-hook step is therefore
modelled from the spec below; the fetch, decode and render steps reuse the
embeddings of the source's `backend.py` and `DestSpec`. -/

/-- A filesystem: the set of existing directories and the files' contents.
Paths are lists of segments; file lookup returns the first (most recent)
entry, so prepending an entry overwrites the file in full. -/
structure FileSys where
  dirs : List (List String)
  files : List (List String × String)
deriving DecidableEq, Repr

/-- Contents of the file at a path, `none` when absent. -/
def FileSys.read (fs : FileSys) (path : List String) : Option String :=
  match fs.files.find? (fun f => f.1 = path) with
  | some f => some f.2
  | none => none

/-- All ancestors of a directory (the directory itself included), i.e.
every prefix of its segment list. -/
def ancestorDirs (dir : List String) : List (List String) :=
  (List.range (dir.length + 1)).map (fun i => dir.take i)

/-- Modelled from the spec: `dest.path.parent.mkdir(parents=True,
exist_ok=True)` — create the directory and its ancestors on demand;
directories that already exist are left alone. -/
def FileSys.mkdirParents (fs : FileSys) (dir : List String) : FileSys :=
  { fs with dirs := ancestorDirs dir ++ fs.dirs }

/-- Modelled from the spec: `dest.path.write_text(text)` — overwrite the
destination file in full (no partial/append writes). -/
def FileSys.writeText (fs : FileSys) (path : List String) (text : String) : FileSys :=
  { fs with files := (path, text) :: fs.files }

/-- Render the decoded data for the destination: a codec-format destination
delegates to the registry's `dumps`, a template destination substitutes the
data into the loaded jinja2 template (an external renderer, passed as a
parameter). -/
def renderDest (ext : ExternalCodecs) (tmplRender : String → StrDict → String) :
    DestFormat → StrDict → Except PyError String
  | DestFormat.codec fmt, data => dumps ext fmt data
  | DestFormat.template p, data => Except.ok (tmplRender p data)

/-- Modelled from the spec: run the object's hooks in the `ObjectSpec`'s
declared order, in sequence, stopping at the first failure.  Returns the
hooks invoked (in order) and the first failure (hook name and message), if
any. -/
def runHooksInOrder (hookRun : String → Except String Unit) :
    List String → List String × Option (String × String)
  | [] => ([], none)
  | h :: rest =>
    match hookRun h with
    | Except.error msg => ([h], some (h, msg))
    | Except.ok _ =>
      let (ran, failure) := runHooksInOrder hookRun rest
      (h :: ran, failure)

/-- The failure of a one-shot `apply()`: an exception from the
fetch/decode/render/write pipeline, or the first hook failure. -/
inductive ApplyError where
  | sourceError (e : PyError)
  | hookFailed (name message : String)
deriving DecidableEq, Repr

/-- The observable outcome of a one-shot `apply()`: the resulting
filesystem, the hooks that were invoked (in order), and the operation's
failure, if any. -/
structure ApplyOutcome where
  fs : FileSys
  hooksRun : List String
  failure : Option ApplyError
deriving DecidableEq, Repr

/-- Modelled from the spec: the one-shot `apply()` operation for one
configuration object — fetch the source payload (`backend.get()`, whose
provider traffic is the `fetched` input), decode it with the source format,
render it for the destination, create the destination's parent directories
if absent, overwrite the destination file, then run each hook in the
`ObjectSpec`'s declared order, propagating the first hook failure as the
operation's failure.  Errors before the write leave the filesystem unchanged
and run no hook. -/
def applyObject (ext : ExternalCodecs) (tmplRender : String → StrDict → String)
    (fetched : Except PyError String) (srcFormat : String)
    (destPath : List String) (destFormat : DestFormat)
    (hooks : List String) (hookRun : String → Except String Unit)
    (fs : FileSys) : ApplyOutcome :=
  match fetched with
  | Except.error e => { fs := fs, hooksRun := [], failure := some (ApplyError.sourceError e) }
  | Except.ok payload =>
    match loads ext srcFormat payload with
    | Except.error e => { fs := fs, hooksRun := [], failure := some (ApplyError.sourceError e) }
    | Except.ok data =>
      match renderDest ext tmplRender destFormat data with
      | Except.error e =>
        { fs := fs, hooksRun := [], failure := some (ApplyError.sourceError e) }
      | Except.ok text =>
        let fs1 := (fs.mkdirParents destPath.dropLast).writeText destPath text
        let (ran, failure) := runHooksInOrder hookRun hooks
        { fs := fs1, hooksRun := ran,
          failure := failure.map (fun p => ApplyError.hookFailed p.1 p.2) }

/-! ## Concrete sample data, used by the closed witness theorems -/

/-- A vacuous instantiation of the external serializer libraries.  It is
used only to state closed facts whose evaluation never reaches an external
codec (the `raw` entries of the registries and the registry-lookup failure
path do not involve the external libraries). -/
def externalStub : ExternalCodecs where
  jsonLoads := fun _ => Except.error (PyError.valueError "external")
  jsonDumps := fun _ => Except.error (PyError.valueError "external")
  yamlSafeLoad := fun _ => Except.error (PyError.valueError "external")
  yamlDump := fun _ => Except.error (PyError.valueError "external")
  tomlLoads := fun _ => Except.error (PyError.valueError "external")
  tomlDumps := fun _ => Except.error (PyError.valueError "external")

/-- A sample task runner: the task named `bad` returns result code 1
(failure), every other task returns 0 (success). -/
def sampleRunner : TaskRunner :=
  fun task => if task.name = "bad" then Except.ok 1 else Except.ok 0

/-- A sample sink task with dependencies. -/
def sampleSink : PoeTask := { name := "deploy", hasDeps := true }

/-- A sample failing intermediate task. -/
def sampleBad : PoeTask := { name := "bad", hasDeps := true }

/-- A sample hook executor: the hook named `boom` fails, all others
succeed. -/
def sampleHookRun : String → Except String Unit :=
  fun h => if h = "boom" then Except.error "hook failed" else Except.ok ()

/-- A sample initial filesystem: only the root directory exists. -/
def sampleFS : FileSys := { dirs := [[]], files := [] }

/-! ## Helper lemmas -/

/-- Looking a format up in `DUMPERS` succeeds exactly for the supported
format identifiers. -/
theorem registryGet_DUMPERS_isSome (ext : ExternalCodecs) (fmt : String) :
    (registryGet (DUMPERS ext) fmt).isSome ↔ fmt ∈ supportedFormats := by
  simp only [DUMPERS, registryGet, supportedFormats, List.mem_cons, List.not_mem_nil, or_false]
  split_ifs <;> simp_all [eq_comm]

/-- Looking a format up in `LOADERS` succeeds exactly for the supported
format identifiers. -/
theorem registryGet_LOADERS_isSome (ext : ExternalCodecs) (fmt : String) :
    (registryGet (LOADERS ext) fmt).isSome ↔ fmt ∈ supportedFormats := by
  simp only [LOADERS, registryGet, supportedFormats, List.mem_cons, List.not_mem_nil, or_false]
  split_ifs <;> simp_all [eq_comm]

/-- No event of the AppConfig poll loop is a propagated
`Request too early` exception: that rejection is always recovered
internally. -/
theorem appConfigPoll_no_rate_limit_raise (interval : ℚ) :
    ∀ (rs : List AppConfigResp) (token : String) (e : PollEvent),
      e ∈ appConfigPoll interval token rs → e ≠ PollEvent.raised "Request too early" := by
  intro rs
  induction rs with
  | nil =>
    intro token e he
    simp [appConfigPoll] at he
  | cons r rest ih =>
    intro token e he
    cases r with
    | badRequest msg =>
      by_cases hm : msg = "Request too early"
      · subst hm
        simp [appConfigPoll] at he
        rcases he with he | he
        · subst he
          simp
        · exact ih token e he
      · simp [appConfigPoll, hm] at he
        subst he
        simp [hm]
    | config content nextToken nextInt =>
      by_cases hc : content = ""
      · subst hc
        simp [appConfigPoll] at he
        rcases he with he | he
        · subst he
          simp
        · exact ih nextToken e he
      · simp [appConfigPoll, hc] at he
        rcases he with he | he | he
        · subst he
          simp
        · subst he
          simp
        · exact ih nextToken e he

/-- Every payload yielded by the AppConfig poll loop is the non-empty
content of one of the provider's configuration responses — in particular a
rate-limit rejection is never yielded. -/
theorem appConfigPoll_yield_source (interval : ℚ) :
    ∀ (rs : List AppConfigResp) (token c : String),
      PollEvent.yielded c ∈ appConfigPoll interval token rs →
      c ≠ "" ∧ ∃ tok i, AppConfigResp.config c tok i ∈ rs := by
  intro rs
  induction rs with
  | nil =>
    intro token c hc
    simp [appConfigPoll] at hc
  | cons r rest ih =>
    intro token c hc
    cases r with
    | badRequest msg =>
      by_cases hm : msg = "Request too early"
      · subst hm
        simp [appConfigPoll] at hc
        obtain ⟨hne, tok, i, hmem⟩ := ih token c hc
        exact ⟨hne, tok, i, List.mem_cons_of_mem _ hmem⟩
      · simp [appConfigPoll, hm] at hc
    | config content nextToken nextInt =>
      by_cases hcc : content = ""
      · subst hcc
        simp [appConfigPoll] at hc
        obtain ⟨hne, tok, i, hmem⟩ := ih nextToken c hc
        exact ⟨hne, tok, i, List.mem_cons_of_mem _ hmem⟩
      · simp [appConfigPoll, hcc] at hc
        rcases hc with hc | hc
        · subst hc
          exact ⟨hcc, nextToken, nextInt, List.mem_cons_self _ _⟩
        · obtain ⟨hne, tok, i, hmem⟩ := ih nextToken c hc
          exact ⟨hne, tok, i, List.mem_cons_of_mem _ hmem⟩

/-- The SecretsManager poll loop never changes the client handle or the
secret ID of the backend; only the last-seen version marker can change. -/
theorem secretsManagerPoll_preserves_identity (interval : ℚ) :
    ∀ (cs : List SecretCycle) (b : SecretsManagerBackend),
      (secretsManagerPoll interval b cs).1.client = b.client ∧
      (secretsManagerPoll interval b cs).1.secret_id = b.secret_id := by
  intro cs
  induction cs with
  | nil => intro b; exact ⟨rfl, rfl⟩
  | cons c rest ih =>
    intro b
    cases hr : retrieveCurrentVersion b.str c.versions with
    | error e =>
      cases e with
      | keyError k =>
        simp only [secretsManagerPoll, hr]
        exact ih b
      | valueError m =>
        simp only [secretsManagerPoll, hr]
        exact ih b
    | ok vid =>
      by_cases hcond : vid ≠ "" ∧ some vid ≠ b.version_id
      · simp only [secretsManagerPoll, hr, if_pos hcond]
        exact ih (b.get c.getResp).1
      · simp only [secretsManagerPoll, hr, if_neg hcond]
        exact ih b

/-- When every hook succeeds, `runHooksInOrder` runs exactly the declared
hooks, in order, and reports no failure. -/
theorem runHooksInOrder_all_ok (hookRun : String → Except String Unit) :
    ∀ hooks : List String, (∀ h ∈ hooks, hookRun h = Except.ok ()) →
      runHooksInOrder hookRun hooks = (hooks, none) := by
  intro hooks
  induction hooks with
  | nil => intro _; rfl
  | cons h rest ih =>
    intro hall
    have hh := hall h (List.mem_cons_self _ _)
    have hrest := ih (fun x hx => hall x (List.mem_cons_of_mem _ hx))
    simp only [runHooksInOrder, hh, hrest]

/-- The first failing hook stops the sequence: the hooks before it run, it
runs and fails, and the hooks after it are never invoked. -/
theorem runHooksInOrder_first_fail (hookRun : String → Except String Unit) (msg f : String) :
    ∀ pre post : List String, (∀ h ∈ pre, hookRun h = Except.ok ()) →
      hookRun f = Except.error msg →
      runHooksInOrder hookRun (pre ++ f :: post) = (pre ++ [f], some (f, msg)) := by
  intro pre
  induction pre with
  | nil =>
    intro post _ hf
    simp only [List.nil_append, runHooksInOrder, hf]
  | cons h rest ih =>
    intro post hall hf
    have hh := hall h (List.mem_cons_self _ _)
    have hrest := ih post (fun x hx => hall x (List.mem_cons_of_mem _ hx)) hf
    simp only [List.cons_append, runHooksInOrder, hh, List.append_eq, hrest]

/-- Creating a directory with its parents makes that directory exist. -/
theorem parent_dir_created (fs : FileSys) (dir : List String) :
    dir ∈ (fs.mkdirParents dir).dirs := by
  simp only [FileSys.mkdirParents, List.mem_append]
  left
  simp only [ancestorDirs, List.mem_map]
  exact ⟨dir.length, by simp, List.take_length dir⟩

/-- Writing a file overwrites it in full: reading the path back yields
exactly the text written. -/
theorem write_overwrites_in_full (fs : FileSys) (path : List String) (text : String) :
    (fs.writeText path text).read path = some text := by
  simp [FileSys.read, FileSys.writeText, List.find?]

/-! ## The claims -/

/-- Claim C1: for every configuration object, the one-shot apply operation
fetches the source payload, decodes it, renders it, writes the result to
the destination path — creating the destination's parent directories if
they are absent and overwriting the file in full — and then runs each of
the object's hooks in the `ObjectSpec`'s declared order, propagating the
first hook failure as the operation's failure.  A fetch (or decode, or
render) error propagates, leaving the filesystem untouched and running no
hook. -/
theorem apply_operation (ext : ExternalCodecs) (tmplRender : String → StrDict → String)
    (payload srcFormat : String) (destPath : List String) (destFormat : DestFormat)
    (hooks pre post : List String) (f msg : String) (hookRun : String → Except String Unit)
    (fs : FileSys) (data : StrDict) (text : String) (e : PyError) :
    (applyObject ext tmplRender (Except.error e) srcFormat destPath destFormat hooks hookRun fs =
      { fs := fs, hooksRun := [], failure := some (ApplyError.sourceError e) }) ∧
    (loads ext srcFormat payload = Except.ok data →
      renderDest ext tmplRender destFormat data = Except.ok text →
      (∀ h ∈ hooks, hookRun h = Except.ok ()) →
      applyObject ext tmplRender (Except.ok payload) srcFormat destPath destFormat hooks
          hookRun fs =
        { fs := (fs.mkdirParents destPath.dropLast).writeText destPath text,
          hooksRun := hooks, failure := none } ∧
      ((fs.mkdirParents destPath.dropLast).writeText destPath text).read destPath = some text ∧
      destPath.dropLast ∈ ((fs.mkdirParents destPath.dropLast).writeText destPath text).dirs) ∧
    (loads ext srcFormat payload = Except.ok data →
      renderDest ext tmplRender destFormat data = Except.ok text →
      (∀ h ∈ pre, hookRun h = Except.ok ()) →
      hookRun f = Except.error msg →
      applyObject ext tmplRender (Except.ok payload) srcFormat destPath destFormat
          (pre ++ f :: post) hookRun fs =
        { fs := (fs.mkdirParents destPath.dropLast).writeText destPath text,
          hooksRun := pre ++ [f], failure := some (ApplyError.hookFailed f msg) }) := by
  refine ⟨rfl, ?_, ?_⟩
  · intro hload hrender hall
    refine ⟨?_, write_overwrites_in_full _ _ _, parent_dir_created _ _⟩
    simp only [applyObject, hload, hrender, runHooksInOrder_all_ok hookRun hooks hall]
    rfl
  · intro hload hrender hall hf
    simp only [applyObject, hload, hrender,
      runHooksInOrder_first_fail hookRun msg f pre post hall hf]
    rfl

/-- Witness for claim C1: a concrete apply of the raw payload `key: 1` to
`/tmp/out.conf` with hooks `h1`, `h2` (all succeeding), and the same apply
with the failing hook `boom` inserted between them. -/
theorem apply_operation_witness :
    (applyObject externalStub (fun _ _ => "") (Except.ok "key: 1") "raw"
        ["tmp", "out.conf"] (DestFormat.codec "raw") ["h1", "h2"] sampleHookRun sampleFS =
      { fs := (sampleFS.mkdirParents ["tmp"]).writeText ["tmp", "out.conf"] "key: 1",
        hooksRun := ["h1", "h2"], failure := none }) ∧
    ((sampleFS.mkdirParents ["tmp"]).writeText ["tmp", "out.conf"] "key: 1").read
        ["tmp", "out.conf"] = some "key: 1" ∧
    ["tmp"] ∈ ((sampleFS.mkdirParents ["tmp"]).writeText ["tmp", "out.conf"] "key: 1").dirs ∧
    (applyObject externalStub (fun _ _ => "") (Except.ok "key: 1") "raw"
        ["tmp", "out.conf"] (DestFormat.codec "raw") (["h1"] ++ "boom" :: ["h2"]) sampleHookRun
        sampleFS =
      { fs := (sampleFS.mkdirParents ["tmp"]).writeText ["tmp", "out.conf"] "key: 1",
        hooksRun := ["h1"] ++ ["boom"],
        failure := some (ApplyError.hookFailed "boom" "hook failed") }) := by
  have h := apply_operation externalStub (fun _ _ => "") "key: 1" "raw" ["tmp", "out.conf"]
    (DestFormat.codec "raw") ["h1", "h2"] ["h1"] ["h2"] "boom" "hook failed" sampleHookRun
    sampleFS [("content", "key: 1")] "key: 1" (PyError.valueError "x")
  have h2 := h.2.1 (by decide) (by decide) (by decide)
  have h3 := h.2.2 (by decide) (by decide) (by decide) (by decide)
  exact ⟨h2.1, h2.2.1, h2.2.2, h3⟩

/-- Claim C2: the hook graph executor runs the plan's batches in order; a
stage whose inner loop finishes the graph determines the outcome no matter
what later batches would hold (they are never started); an intermediate
task that returns a non-zero result aborts immediately with an
`ExecutionError` naming it (`Task graph aborted after failed task
'<name>'`), independently of the tasks after it; the sink task, when
reached, is run through the same direct `run_task` path that
dependency-free tasks use; and an empty execution plan performs zero task
invocations and reports success. -/
theorem hook_graph_execution (runner : TaskRunner) (sink t : PoeTask)
    (stage rest rest' : List PoeTask) (plan plan' : List (List PoeTask)) (code : Nat) :
    (run_task_graph runner sink [] = GraphOutcome.ok []) ∧
    (∀ out, runStageTasks runner sink stage = StageStep.finished out →
      run_task_graph runner sink (stage :: plan) = out ∧
      run_task_graph runner sink (stage :: plan') = out) ∧
    (t ≠ sink → runner t = Except.ok code → code ≠ 0 →
      runStageTasks runner sink (t :: rest) =
        StageStep.finished (GraphOutcome.executionError (abortMessage t.name)
          [TaskInvocation.staged t.name]) ∧
      runStageTasks runner sink (t :: rest') =
        StageStep.finished (GraphOutcome.executionError (abortMessage t.name)
          [TaskInvocation.staged t.name])) ∧
    (runStageTasks runner sink (sink :: rest) = StageStep.finished (run_task runner sink)) ∧
    (t.hasDeps = false → HooksEngine.execute runner t plan = run_task runner t) ∧
    (t.hasDeps = true → HooksEngine.execute runner t plan = run_task_graph runner t plan) := by
  refine ⟨rfl, ?_, ?_, ?_, ?_, ?_⟩
  · intro out h
    constructor <;> simp [run_task_graph, h]
  · intro ht hr hc
    constructor <;> simp [runStageTasks, ht, hr, hc]
  · simp [runStageTasks]
  · intro h
    simp [HooksEngine.execute, h]
  · intro h
    simp [HooksEngine.execute, h]

/-- Witness for claim C2: with a runner on which the task `bad` fails, the
empty plan is a no-op success, the stage `[bad, deploy]` aborts naming
`bad`, the stage starting with the sink runs it through the direct path,
and a task with dependencies goes through `run_task_graph`. -/
theorem hook_graph_execution_witness :
    run_task_graph sampleRunner sampleSink [] = GraphOutcome.ok [] ∧
    runStageTasks sampleRunner sampleSink [sampleBad, sampleSink] =
      StageStep.finished (GraphOutcome.executionError (abortMessage "bad")
        [TaskInvocation.staged "bad"]) ∧
    runStageTasks sampleRunner sampleSink [sampleSink] =
      StageStep.finished (run_task sampleRunner sampleSink) ∧
    HooksEngine.execute sampleRunner sampleBad [] = run_task_graph sampleRunner sampleBad [] := by
  have h := hook_graph_execution sampleRunner sampleSink sampleBad [] [sampleSink] [] [] [] 1
  have h2 := hook_graph_execution sampleRunner sampleSink sampleBad [] [] [] [] [] 1
  exact ⟨h.1, (h.2.2.1 (by decide) (by decide) (by decide)).1, h2.2.2.2.1,
    h.2.2.2.2.2 (by decide)⟩

/-- Claim C3: in the AppConfig poll loop, a `Request too early` rejection
causes a sleep of half the configured interval and a retry that yields
nothing; no rate-limit rejection is ever yielded or surfaced to the caller
(every propagated exception has a different message, and every yielded
payload is the non-empty content of a configuration response); and after
the rejection, the payload of the subsequent successful poll is yielded. -/
theorem appconfig_rate_limit_backoff (interval nextInt : ℚ)
    (token nextToken content : String) (rs : List AppConfigResp) :
    (appConfigPoll interval token (AppConfigResp.badRequest "Request too early" :: rs) =
      PollEvent.sleep (interval / 2) :: appConfigPoll interval token rs) ∧
    (∀ e ∈ appConfigPoll interval token rs, e ≠ PollEvent.raised "Request too early") ∧
    (∀ c, PollEvent.yielded c ∈ appConfigPoll interval token rs →
      c ≠ "" ∧ ∃ tok i, AppConfigResp.config c tok i ∈ rs) ∧
    (content ≠ "" →
      appConfigPoll interval token (AppConfigResp.badRequest "Request too early" ::
          AppConfigResp.config content nextToken nextInt :: rs) =
        PollEvent.sleep (interval / 2) :: PollEvent.yielded content ::
          PollEvent.sleep nextInt :: appConfigPoll interval nextToken rs) := by
  refine ⟨by simp [appConfigPoll],
    fun e he => appConfigPoll_no_rate_limit_raise interval rs token e he,
    fun c hc => appConfigPoll_yield_source interval rs token c hc, fun hc => ?_⟩
  simp [appConfigPoll, hc]

/-- Witness for claim C3: polling with a 60-second interval, a
`Request too early` rejection followed by a successful response sleeps 30
seconds, yields the payload, and sleeps the provider's suggested 45
seconds. -/
theorem appconfig_rate_limit_backoff_witness :
    appConfigPoll 60 "tok0" [AppConfigResp.badRequest "Request too early",
        AppConfigResp.config "key: val" "tok1" 45] =
      [PollEvent.sleep 30, PollEvent.yielded "key: val", PollEvent.sleep 45] := by
  have h := appconfig_rate_limit_backoff 60 45 "tok0" "tok1" "key: val" []
  have h4 := h.2.2.2 (by decide)
  rw [h4]
  norm_num [appConfigPoll]

/-- Claim C4: friendly-name-to-ID resolution with N provider-returned
matches raises a fatal `ValueError` when N = 0; succeeds returning the
first match in provider order when N ≥ 1; records no warning when N = 1;
and records a warning listing the ignored matches when N > 1. -/
theorem friendly_name_resolution (name op first : String) (rest : List String) :
    (get_id_from_name name op [] = Except.error (PyError.valueError
      ("no \"" ++ op ++ "\" results found for Name=\"" ++ name ++ "\""))) ∧
    (∃ w, get_id_from_name name op (first :: rest) = Except.ok { id := first, warning := w }) ∧
    (rest = [] → get_id_from_name name op (first :: rest) =
      Except.ok { id := first, warning := none }) ∧
    (rest ≠ [] → get_id_from_name name op (first :: rest) =
      Except.ok { id := first, warning := some (rest.length + 1, first, rest) }) := by
  refine ⟨rfl, ?_, ?_, ?_⟩
  · exact ⟨_, rfl⟩
  · intro h
    subst h
    rfl
  · intro h
    have hl : rest.length > 0 := List.length_pos.mpr h
    simp [get_id_from_name, hl, List.length_cons]

/-- Witness for claim C4: resolution of `app-name` with zero, one and
three matches. -/
theorem friendly_name_resolution_witness :
    get_id_from_name "app-name" "list_applications" [] = Except.error (PyError.valueError
      "no \"list_applications\" results found for Name=\"app-name\"") ∧
    get_id_from_name "app-name" "list_applications" ["id-1"] =
      Except.ok { id := "id-1", warning := none } ∧
    get_id_from_name "app-name" "list_applications" ["id-1", "id-2", "id-3"] =
      Except.ok { id := "id-1", warning := some (3, "id-1", ["id-2", "id-3"]) } := by
  refine ⟨?_, ?_, ?_⟩
  · exact (friendly_name_resolution "app-name" "list_applications" "x" []).1
  · exact (friendly_name_resolution "app-name" "list_applications" "id-1" []).2.2.1 rfl
  · exact (friendly_name_resolution "app-name" "list_applications" "id-1"
      ["id-2", "id-3"]).2.2.2 (by decide)

/-- Claim C5: in the SecretsManager poll loop, a cycle on which the
provider reports no version flagged as current logs a warning, sleeps, and
continues — it neither fails the loop nor yields; a cycle whose current
version equals the last-seen marker (or is empty) sleeps without yielding;
and a cycle whose current version is truthy and differs from the last-seen
marker yields the fetched secret value. -/
theorem secrets_poll_skip_missing_current (interval : ℚ) (b : SecretsManagerBackend)
    (c : SecretCycle) (rest : List SecretCycle) (e vid : String) :
    (retrieveCurrentVersion b.str c.versions = Except.error (PyError.valueError e) →
      secretsManagerPoll interval b (c :: rest) =
        ((secretsManagerPoll interval b rest).1,
          SecretPollEvent.warned e :: SecretPollEvent.sleep interval ::
            (secretsManagerPoll interval b rest).2)) ∧
    (retrieveCurrentVersion b.str c.versions = Except.ok vid →
      (vid = "" ∨ some vid = b.version_id) →
      secretsManagerPoll interval b (c :: rest) =
        ((secretsManagerPoll interval b rest).1,
          SecretPollEvent.sleep interval :: (secretsManagerPoll interval b rest).2)) ∧
    (retrieveCurrentVersion b.str c.versions = Except.ok vid →
      vid ≠ "" → some vid ≠ b.version_id →
      secretsManagerPoll interval b (c :: rest) =
        ((secretsManagerPoll interval (b.get c.getResp).1 rest).1,
          SecretPollEvent.yielded c.getResp.secretString :: SecretPollEvent.sleep interval ::
            (secretsManagerPoll interval (b.get c.getResp).1 rest).2)) := by
  refine ⟨?_, ?_, ?_⟩
  · intro h
    simp only [secretsManagerPoll, h]
  · intro h hcond
    have hnot : ¬(vid ≠ "" ∧ some vid ≠ b.version_id) := by
      rcases hcond with hc | hc
      · exact fun hcc => hcc.1 hc
      · exact fun hcc => hcc.2 hc
    simp only [secretsManagerPoll, h, if_neg hnot]
  · intro h h1 h2
    simp only [secretsManagerPoll, h, if_pos (And.intro h1 h2), SecretsManagerBackend.get]

/-- Witness for claim C5: a cycle on which the only version is staged
`AWSPREVIOUS` (nothing flagged current) warns, sleeps, and neither fails
nor yields. -/
theorem secrets_poll_skip_missing_current_witness :
    retrieveCurrentVersion (SecretsManagerBackend.mk 0 "secret-id" none).str
        [SecretVersion.mk (some "v1") ["AWSPREVIOUS"]] =
      Except.error (PyError.valueError
        "No current version found for secret \x27secret-id\x27") ∧
    secretsManagerPoll 60 (SecretsManagerBackend.mk 0 "secret-id" none)
        [SecretCycle.mk [SecretVersion.mk (some "v1") ["AWSPREVIOUS"]]
          (GetSecretValueResp.mk (some "v1") "data")] =
      (SecretsManagerBackend.mk 0 "secret-id" none,
        [SecretPollEvent.warned "No current version found for secret \x27secret-id\x27",
          SecretPollEvent.sleep 60]) := by
  refine ⟨by decide, ?_⟩
  have h := (secrets_poll_skip_missing_current 60 (SecretsManagerBackend.mk 0 "secret-id" none)
    (SecretCycle.mk [SecretVersion.mk (some "v1") ["AWSPREVIOUS"]]
      (GetSecretValueResp.mk (some "v1") "data")) []
    "No current version found for secret \x27secret-id\x27" "").1 (by decide)
  rw [h]
  rfl

/-- Claim C6 counterexample: the round-trip law fails on the code for the
supported codec identifier `raw` at the structurally valid mapping
`{content: a, x: b}` (a `dict[str, str]` accepted by `dump_raw`): encoding
gives `a`, decoding that gives `{content: a}`, which differs from the
original mapping at the key `x`. -/
theorem raw_roundtrip_counterexample :
    dumps externalStub "raw" [("content", "a"), ("x", "b")] = Except.ok "a" ∧
    loads externalStub "raw" "a" = Except.ok [("content", "a")] ∧
    dictGet [("content", "a")] "x" ≠ dictGet [("content", "a"), ("x", "b")] "x" ∧
    ¬ dictEquiv [("content", "a")] [("content", "a"), ("x", "b")] :=
  ⟨by decide, by decide, by decide, fun h => absurd (h "x") (by decide)⟩

/-- Claim C6 (amended): the repository-defined `raw` codec satisfies
`loads('raw', t) = {content: t}` and `dumps('raw', loads('raw', t)) = t`
for every text `t`; for a mapping `m` containing `content`, the round-trip
`loads('raw', dumps('raw', m))` gives `{content: m[content]}`, which equals
`m` (as Python dictionaries) exactly when `content` is `m`'s only key.  The
`json`/`yaml`/`toml` registry entries delegate to external libraries. -/
theorem raw_codec_laws (ext : ExternalCodecs) (t : String) (m : StrDict) (v : String)
    (hv : dictGet m "content" = some v) :
    loads ext "raw" t = Except.ok [("content", t)] ∧
    dumps ext "raw" (load_raw t) = Except.ok t ∧
    dumps ext "raw" m = Except.ok v ∧
    loads ext "raw" v = Except.ok [("content", v)] ∧
    (dictEquiv [("content", v)] m ↔ ∀ k, k ≠ "content" → dictGet m k = none) := by
  refine ⟨?_, ?_, ?_, ?_, ?_⟩
  · simp [loads, LOADERS, registryGet, load_raw]
  · simp [dumps, DUMPERS, registryGet, dump_raw, load_raw, dictGet]
  · simp [dumps, DUMPERS, registryGet, dump_raw, hv]
  · simp [loads, LOADERS, registryGet, load_raw]
  · constructor
    · intro h k hk
      have := h k
      simp [dictGet, Ne.symm hk] at this
      exact this.symm
    · intro h k
      by_cases hk : k = "content"
      · subst hk
        simp [dictGet, hv]
      · have hk2 : ¬("content" = k) := fun e => hk e.symm
        simp [dictGet, hk2, h k hk]

/-- Witness for claim C6 (amended): the raw laws evaluated at the text
`txt` and the mapping `{content: a, x: b}`. -/
theorem raw_codec_laws_witness :
    loads externalStub "raw" "txt" = Except.ok [("content", "txt")] ∧
    dumps externalStub "raw" (load_raw "txt") = Except.ok "txt" ∧
    dumps externalStub "raw" [("content", "a"), ("x", "b")] = Except.ok "a" ∧
    loads externalStub "raw" "a" = Except.ok [("content", "a")] := by
  have h := raw_codec_laws externalStub "txt" [("content", "a"), ("x", "b")] "a" (by decide)
  exact ⟨h.1, h.2.1, h.2.2.1, h.2.2.2.1⟩

/-- Claim C7: looking an unknown format identifier up in the codec
registries produces the `unsupported format` error at the
registration-lookup step — uniformly in the data and before any codec is
invoked — for both the encode and the decode direction. -/
theorem unknown_format_fails_at_lookup (ext : ExternalCodecs) (fmt : String)
    (h : fmt ∉ supportedFormats) :
    (∀ data, dumps ext fmt data =
      Except.error (PyError.valueError ("unsupported format: \x27" ++ fmt ++ "\x27"))) ∧
    (∀ raw, loads ext fmt raw =
      Except.error (PyError.valueError ("unsupported format: \x27" ++ fmt ++ "\x27"))) := by
  have hd : registryGet (DUMPERS ext) fmt = none := by
    have := registryGet_DUMPERS_isSome ext fmt
    cases hg : registryGet (DUMPERS ext) fmt with
    | none => rfl
    | some v => exact absurd (this.mp (by simp [hg])) h
  have hl : registryGet (LOADERS ext) fmt = none := by
    have := registryGet_LOADERS_isSome ext fmt
    cases hg : registryGet (LOADERS ext) fmt with
    | none => rfl
    | some v => exact absurd (this.mp (by simp [hg])) h
  exact ⟨fun data => by simp [dumps, hd], fun raw => by simp [loads, hl]⟩

/-- Witness for claim C7: the unsupported identifier `ini` fails both
directions with the lookup-time error. -/
theorem unknown_format_fails_at_lookup_witness :
    "ini" ∉ supportedFormats ∧
    dumps externalStub "ini" [("content", "a")] =
      Except.error (PyError.valueError "unsupported format: \x27ini\x27") ∧
    loads externalStub "ini" "x = 1" =
      Except.error (PyError.valueError "unsupported format: \x27ini\x27") := by
  refine ⟨by decide, ?_, ?_⟩
  · exact (unknown_format_fails_at_lookup externalStub "ini" (by decide)).1 [("content", "a")]
  · exact (unknown_format_fails_at_lookup externalStub "ini" (by decide)).2 "x = 1"

/-- Claim C8: the `rendering` (`format`) field of a destination spec is
interpreted in exactly one of two mutually exclusive ways, decided by
membership in the codec registry: a registered codec identifier yields the
structured-encode mode, anything else is treated as the filesystem path of
a template which is loaded; no value is ever both. -/
theorem rendering_mode_mutually_exclusive (ext : ExternalCodecs) (path fmt : String) :
    (fmt ∈ supportedFormats →
      DestSpec.from_primitives ext path fmt = { path := path, format := DestFormat.codec fmt } ∧
      (DestSpec.from_primitives ext path fmt).is_template = false) ∧
    (fmt ∉ supportedFormats →
      DestSpec.from_primitives ext path fmt =
        { path := path, format := DestFormat.template fmt } ∧
      (DestSpec.from_primitives ext path fmt).is_template = true) ∧
    (∀ f p, ¬((DestSpec.from_primitives ext path fmt).format = DestFormat.codec f ∧
      (DestSpec.from_primitives ext path fmt).format = DestFormat.template p)) := by
  refine ⟨?_, ?_, ?_⟩
  · intro h
    have hs : (registryGet (DUMPERS ext) fmt).isSome := (registryGet_DUMPERS_isSome ext fmt).mpr h
    constructor <;> simp [DestSpec.from_primitives, hs, DestSpec.is_template]
  · intro h
    have hs : ¬(registryGet (DUMPERS ext) fmt).isSome := fun hs =>
      h ((registryGet_DUMPERS_isSome ext fmt).mp hs)
    constructor <;> simp [DestSpec.from_primitives, hs, DestSpec.is_template]
  · intro f p hc
    rw [hc.1] at hc
    exact absurd hc.2 (by simp)

/-- Witness for claim C8: `json` resolves to the codec mode and a template
path resolves to the template mode. -/
theorem rendering_mode_mutually_exclusive_witness :
    DestSpec.from_primitives externalStub "/tmp/out.json" "json" =
      { path := "/tmp/out.json", format := DestFormat.codec "json" } ∧
    DestSpec.from_primitives externalStub "/tmp/out.conf" "templates/out.j2" =
      { path := "/tmp/out.conf", format := DestFormat.template "templates/out.j2" } := by
  refine ⟨?_, ?_⟩
  · exact ((rendering_mode_mutually_exclusive externalStub "/tmp/out.json" "json").1
      (by decide)).1
  · exact ((rendering_mode_mutually_exclusive externalStub "/tmp/out.conf"
      "templates/out.j2").2.1 (by decide)).1

/-- Claim C9: after construction, a configuration source's connection state
is never mutated by fetch or poll — the AppConfig and local backends are
returned unchanged by `get`, and the SecretsManager backend's client and
secret ID are preserved by both `get` and the poll loop — except the
last-seen version marker, which `get` sets to the response's version on
every successful fetch. -/
theorem connection_state_frame (a : AppConfigBackend) (resp : AppConfigGetResp)
    (s : SecretsManagerBackend) (g : GetSecretValueResp) (l : LocalBackend) (text : String)
    (interval : ℚ) (cs : List SecretCycle) :
    ((a.get resp).1 = a) ∧
    ((l.get text).1 = l) ∧
    ((s.get g).1.client = s.client ∧ (s.get g).1.secret_id = s.secret_id ∧
      (s.get g).1.version_id = g.versionId) ∧
    ((secretsManagerPoll interval s cs).1.client = s.client ∧
      (secretsManagerPoll interval s cs).1.secret_id = s.secret_id) :=
  ⟨rfl, rfl, ⟨rfl, rfl, rfl⟩, secretsManagerPoll_preserves_identity interval cs s⟩

/-- Claim C10: encoding with the raw codec is defined only for mappings
containing the synthetic `content` key: without it, `dump_raw` raises
`KeyError('content')` instead of returning text, and under the
precondition that `content` is present the error branch is unreachable
(the value is returned). -/
theorem dump_raw_content_domain (m : StrDict) :
    (dictGet m "content" = none →
      dump_raw m = Except.error (PyError.keyError "content")) ∧
    (∀ v, dictGet m "content" = some v → dump_raw m = Except.ok v) := by
  constructor
  · intro h
    simp [dump_raw, h]
  · intro v h
    simp [dump_raw, h]

/-- Witness for claim C10: `dump_raw` on a mapping without `content` raises
the `KeyError`, and on a mapping with `content` returns its value. -/
theorem dump_raw_content_domain_witness :
    dump_raw [("x", "b")] = Except.error (PyError.keyError "content") ∧
    dump_raw [("content", "a"), ("x", "b")] = Except.ok "a" :=
  ⟨(dump_raw_content_domain [("x", "b")]).1 (by decide),
   (dump_raw_content_domain [("content", "a"), ("x", "b")]).2 "a" (by decide)⟩

end ConfigNinja
